import Mathlib

/-!
Verification of the model-execution and mask-persistence core of
ssg-hs-forensics-app against its specification.

The Python sources under `src/ssg_hs_forensics_app/core/` are shallowly
embedded below:

* `safe_generate_masks.py` — the isolated-executor supervision loop is
  modelled as a step function over a trace of observations (queue contents,
  child liveness, exit code, elapsed wall-clock time).  Each loop iteration
  of the Python `while True` corresponds to one `Obs`; the two reads of the
  queue inside one iteration (`not q.empty()` at the top and the `q.empty()`
  re-check in the crash branch) are modelled as two separate fields so that
  the re-check-before-crash behaviour is visible.  Wall-clock time is exact
  rational arithmetic; the 0.05 s sleep is the constant `pollInterval`.
* `mask_writer.py` — the HDF5 container is modelled as `H5File`; bytes are
  `List Nat`, rasters are `List (List ℚ)` of membership values (the source
  uses float32; the values 0 and 1 relevant to the round-trip claims are
  exactly representable, so exact rationals are faithful there), and the
  numpy `astype` casts are explicit wrap-arounds (`int32cast`, `int64cast`).
  h5py iterates the members of a group in increasing (byte-lexicographic)
  name order; this is modelled by sorting the group list with `strLe`.
  The JSON serialisation of the metadata dictionaries is modelled as an
  opaque string stored verbatim (none of the claims concern JSON itself).
* `mask_schema.py` — `make_mask_record`.
* `preset_loader.py` — `load_preset_params`; the Python `KeyError`s raised
  there are the constructors of `PyError` carrying both the rendered message
  and the structured list of available names.  Python `sorted` over strings
  is byte-lexicographic for the ASCII names involved, matching `strLe`.
* `model_loader.py` / `model_sam2.py` / `model_sam21.py` — `resolve_device`
  and the family adapters' `_resolve_device`; `torch.cuda.is_available()`
  and `torch.backends.mps.is_available()` are boolean parameters of the
  embedding.
* `model_sam1.py` / `model_sam2.py` / `model_sam21.py` — the family
  adapters' generate functions.  The compute-heavy native mask generator
  (`SamAutomaticMaskGenerator(...).generate`) is an oracle parameter; the
  required-parameter dictionary accesses which Python performs before that
  call are `firstMissing` over the adapter's fixed key list, in source
  order.
-/

/-- Character-list comparison: byte-lexicographic order on code points.
This is the order h5py enumerates group member names in, and the order of
Python `sorted` on ASCII strings. -/
def charListLe : List Char → List Char → Bool
  | [], _ => true
  | _ :: _, [] => false
  | a :: as, b :: bs =>
    if a.toNat < b.toNat then true
    else if b.toNat < a.toNat then false
    else charListLe as bs

/-- Byte-lexicographic string order (code-point order). -/
def strLe (a b : String) : Bool := charListLe a.data b.data

/-- Python `str.lower()` restricted to the ASCII arguments the code passes. -/
def pyLower (s : String) : String := ⟨s.data.map Char.toLower⟩

/-- Python `str.strip()`: drop leading and trailing whitespace. -/
def pyStrip (s : String) : String :=
  ⟨((s.data.dropWhile Char.isWhitespace).reverse.dropWhile Char.isWhitespace).reverse⟩

/-- A single-quote character, used when rendering the source's error
messages. -/
def squote : String := String.singleton (Char.ofNat 39)

/-- Errors raised by the embedded Python functions.  Python raises
`KeyError` / `RuntimeError`; the constructors record the raise site and any
structured data the message interpolates. -/
inductive PyError where
  | keyError (key : String)
  | presetsSectionMissing (msg : String)
  | unknownModelKey (msg : String) (available : List String)
  | unknownPreset (msg : String) (available : List String)
  | runtimeError (msg : String)
deriving DecidableEq

/-- Python `sorted` over a list of (ASCII) strings. -/
def sortedStr (l : List String) : List String :=
  List.insertionSort (fun a b => strLe a b = true) l

/-- The message of the `KeyError` raised by `load_preset_params` when the
preset name is not defined for the model key (preset_loader.py lines
49-54). -/
def unknownPresetMsg (model_key preset_name : String) (avail : List String) : String :=
  "Preset " ++ squote ++ preset_name ++ squote ++ " not defined for model " ++ squote ++
    model_key ++ squote ++ ".\nAvailable presets: " ++ String.intercalate ", " avail

/-- The message of the `KeyError` raised by `load_preset_params` when no
preset group exists for the model key. -/
def unknownModelKeyMsg (model_key : String) (avail : List String) : String :=
  "No presets found for model key " ++ squote ++ model_key ++ squote ++
    ".\nAvailable preset groups: " ++ String.intercalate ", " avail

/-- Embedding of `preset_loader.load_preset_params`.  The merged
configuration's `[presets]` tree is passed explicitly: `none` models a
config with no `[presets]` section; otherwise an association list of model
key to association list of preset name to parameter bag (`π` is the type of
parameter bags).  TOML tables have unique keys, matching the first-match
semantics of `List.lookup`. -/
def load_preset_params {π : Type}
    (presetsRoot : Option (List (String × List (String × π))))
    (model_key preset_name : String) : Except PyError π :=
  match presetsRoot with
  | none => .error (.presetsSectionMissing
      ("config.toml is missing a [presets] section. Expected preset definitions under [presets.<model_key>.<preset_name>]."))
  | some root =>
    match root.lookup model_key with
    | none =>
      let avail := sortedStr (root.map Prod.fst)
      .error (.unknownModelKey (unknownModelKeyMsg model_key avail) avail)
    | some model_presets =>
      match model_presets.lookup preset_name with
      | none =>
        let avail := sortedStr (model_presets.map Prod.fst)
        .error (.unknownPreset (unknownPresetMsg model_key preset_name avail) avail)
      | some params => .ok params

/-- Embedding of `model_loader.resolve_device`.  The availability of the
accelerators (`torch.cuda.is_available()`, `torch.backends.mps.is_available()`)
is passed as booleans.  The Python function always returns a string and
never raises. -/
def resolve_device (device_str : String) (cuda_available mps_available : Bool) : String :=
  let requested := pyLower (pyStrip device_str)
  if requested = "cuda" then
    if cuda_available then "cuda" else "cpu"
  else if requested = "auto" then
    if cuda_available then "cuda"
    else if mps_available then "mps"
    else "cpu"
  else "cpu"

/-- Embedding of `_resolve_device` from `model_sam2.py` (the function in
`model_sam21.py` is identical up to a log message).  `none` models a `None`
argument (Python `requested or "auto"`). -/
def sam2_resolve_device (requested : Option String) (cuda_available : Bool) :
    Except PyError String :=
  let r := pyLower (match requested with
    | none => "auto"
    | some s => if s = "" then "auto" else s)
  if r = "cpu" then .ok "cpu"
  else if r = "cuda" then
    if cuda_available then .ok "cuda"
    else .error (.runtimeError
      ("Config requested device=" ++ squote ++ "cuda" ++ squote ++ " but CUDA is unavailable."))
  else if r = "auto" then .ok (if cuda_available then "cuda" else "cpu")
  else .ok "cpu"

/-- Unified mask record produced by `mask_schema.make_mask_record` and
consumed by `mask_writer.write_masks_h5`.  The raster is a 2-D list of
membership values; metadata is the JSON-serialised text (opaque here). -/
structure MaskRecord where
  mask : List (List ℚ)
  confidence : ℚ
  bbox : Option (List Int)
  area : Option Int
  track_id : Option Int
  metadata : String
deriving DecidableEq

/-- The serialised form of the Python default `metadata={}`. -/
def emptyJson : String := "\x7b\x7d"

/-- Embedding of `mask_schema.make_mask_record`.  In the source, `bbox`,
`area`, `track_id` and `metadata` are keyword arguments defaulting to
`None`; callers that omit them are modelled by passing `none` here (the
Python default).  `metadata=None` becomes the empty dict, serialised later;
`int(area)` and `float(confidence)` are identities in this model. -/
def make_mask_record (mask : List (List ℚ)) (confidence : ℚ)
    (bbox : Option (List Int)) (area : Option Int) (track_id : Option Int)
    (metadata : Option String) : MaskRecord :=
  { mask := mask
    confidence := confidence
    bbox := bbox
    area := area.map (fun a => a)
    track_id := track_id
    metadata := metadata.getD emptyJson }

/-- numpy `astype("int32")` on a Python int: wrap into the int32 range. -/
def int32cast (z : Int) : Int := (z + 2 ^ 31) % 2 ^ 32 - 2 ^ 31

/-- Storing a Python int into a 64-bit HDF5 integer dataset: wrap into the
int64 range. -/
def int64cast (z : Int) : Int := (z + 2 ^ 63) % 2 ^ 64 - 2 ^ 63

/-- The writer's raster quantisation (mask_writer.py line 87):
`(mask_arr * 255).astype("uint8")`.  On the membership domain `[0, 1]` the
C float-to-uint8 cast truncates, which for non-negative values is the
floor; the `% 256` makes the embedding total outside that domain. -/
def quantize (q : ℚ) : Nat := (⌊q * 255⌋).toNat % 256

/-- One `/masks/N/` group of the HDF5 container, as written by
`write_masks_h5`. -/
structure MaskGroupData where
  mask_uint8 : List (List Nat)
  confidence : ℚ
  bbox : List Int
  area : Int
  track_id : Int
  metadata : String
deriving DecidableEq

/-- The persisted HDF5 container: `/image/jpeg`, the `/masks/N` groups
(name × payload; HDF5 member names within a group are unique), and the four
serialised metadata sections. -/
structure H5File where
  image_jpeg : List Nat
  maskGroups : List (String × MaskGroupData)
  input_info : String
  model_info : String
  preset_info : String
  runinfo : String
deriving DecidableEq

/-- The per-mask datasets created by `write_masks_h5` (mask_writer.py lines
82-106): quantised raster, `float(confidence)`, bbox as int32 (empty when
absent), `int(area or 0)`, `int(track_id)` or `-1`, and the metadata
text. -/
def writeGroup (m : MaskRecord) : MaskGroupData :=
  { mask_uint8 := m.mask.map (fun row => row.map quantize)
    confidence := m.confidence
    bbox := match m.bbox with
      | none => []
      | some b => b.map int32cast
    area := int64cast (match m.area with
      | none => 0
      | some a => a)
    track_id := match m.track_id with
      | none => -1
      | some t => int64cast t
    metadata := m.metadata }

/-- Embedding of `mask_writer.write_masks_h5`: the JPEG bytes are stored
verbatim (`np.frombuffer` is the identity on bytes), each mask is stored
under the decimal group name `str(idx)` of its index, and the four metadata
sections are stored as serialised text. -/
def write_masks_h5 (masks : List MaskRecord) (jpeg_bytes : List Nat)
    (image_info model_info preset_info runinfo : String) : H5File :=
  { image_jpeg := jpeg_bytes
    maskGroups := masks.enum.map (fun p => (toString p.1, writeGroup p.2))
    input_info := image_info
    model_info := model_info
    preset_info := preset_info
    runinfo := runinfo }

/-- One entry of the list returned by `load_masks_h5`: the thresholded
boolean raster and the scalar fields read back. -/
structure LoadedMask where
  segmentation : List (List Bool)
  confidence : ℚ
  bbox : List Int
  area : Int
  track_id : Int
  metadata : String
deriving DecidableEq

/-- Reading one `/masks/N/` group back (mask_writer.py lines 166-182):
`mask_uint8 > 127` thresholding and identity reads of the scalars. -/
def readGroup (g : MaskGroupData) : LoadedMask :=
  { segmentation := g.mask_uint8.map (fun row => row.map (fun v => decide (127 < v)))
    confidence := g.confidence
    bbox := g.bbox
    area := g.area
    track_id := g.track_id
    metadata := g.metadata }

/-- The group iteration order of `for idx in g_masks.keys()`: h5py yields
group members in increasing name order. -/
def groupLe (a b : String × MaskGroupData) : Prop := strLe a.1 b.1 = true

instance groupLeDecidable : DecidableRel groupLe :=
  fun a b => inferInstanceAs (Decidable (strLe a.1 b.1 = true))

/-- The `/masks` group with its members in h5py iteration order. -/
def sortGroups (gs : List (String × MaskGroupData)) : List (String × MaskGroupData) :=
  List.insertionSort groupLe gs

/-- The dictionary returned by `load_masks_h5`. -/
structure LoadOut where
  jpeg_bytes : List Nat
  input_info : String
  model_info : String
  preset_info : String
  runinfo : String
  masks : List LoadedMask
deriving DecidableEq

/-- Embedding of `mask_writer.load_masks_h5`: bytes come back verbatim
(`bytes(jpeg_dset[:])`), the metadata sections are deserialised (identity
on the opaque serialised text in this model), and the masks are read in
h5py name order. -/
def load_masks_h5 (f : H5File) : LoadOut :=
  { jpeg_bytes := f.image_jpeg
    input_info := f.input_info
    model_info := f.model_info
    preset_info := f.preset_info
    runinfo := f.runinfo
    masks := (sortGroups f.maskGroups).map (fun p => readGroup p.2) }

/-- Pixel access in a 2-D list raster. -/
def pixelAt {α : Type} (g : List (List α)) (r c : Nat) : Option α :=
  (g[r]?).bind (fun row => row[c]?)

/-- The decimal group names `str(0), ..., str(n-1)` in the order the masks
were written. -/
def decimalNames (n : Nat) : List String := (List.range n).map toString

/-- The single message the worker posts on the one-shot queue
(`_sam_worker`): a success payload or a serialised traceback. -/
inductive Outcome (α : Type) where
  | ok (payload : α)
  | err (traceback : String)
deriving DecidableEq

/-- Embedding of `_sam_worker`: the worker runs the generation function and
always posts exactly one outcome — unless the process dies natively, which
is the trace scenario where no outcome is ever observed. -/
def sam_worker {μ ν σ ρ : Type} (generator_fn : μ → ν → σ → Except String ρ)
    (runtime_model : μ) (np_image : ν) (preset_name : σ) : Outcome ρ :=
  match generator_fn runtime_model np_image preset_name with
  | .ok r => .ok r
  | .error tb => .err tb

/-- What the supervising loop of `safe_generate_masks` observes during one
iteration of its `while True` body: the queue contents at the step-1
check (`not q.empty()`), the queue contents at the step-2 re-check
(`q.empty()` inside the dead-child branch; the worker may post in
between), `p.is_alive()`, `p.exitcode`, and the elapsed wall-clock time
`time.time() - start_time`. -/
structure Obs (α : Type) where
  queuedFirst : Option (Outcome α)
  queuedSecond : Option (Outcome α)
  alive : Bool
  exitcode : Int
  elapsed : ℚ

/-- The decision one iteration of the supervision loop takes. -/
inductive LoopAction (α : Type) where
  | done (out : Outcome α)
  | crash (exitcode : Int)
  | timeoutKill
  | continueNoSleep
  | sleepRetry

/-- The 0.05 s sleep between supervision polls
(safe_generate_masks.py line 136). -/
def pollInterval : ℚ := 1 / 20

/-- One iteration of the polling loop of `safe_generate_masks`
(lines 100-136), in source order: (1) if the queue has output, take it and
stop; (2) if the worker is no longer alive, re-check the queue — conclude a
crash carrying the exit code only if it is still empty, otherwise loop
again to pick the output up; (3) if the elapsed time exceeds the timeout,
kill the worker and raise; (4) otherwise sleep and retry. -/
def loopStep {α : Type} (timeout : ℚ) (o : Obs α) : LoopAction α :=
  match o.queuedFirst with
  | some out => .done out
  | none =>
    match o.alive with
    | false =>
      match o.queuedSecond with
      | none => .crash o.exitcode
      | some _ => .continueNoSleep
    | true =>
      if timeout < o.elapsed then .timeoutKill
      else .sleepRetry

/-- How the supervision loop ends.  `timedOut` carries the observation of
the raising iteration (its `elapsed` is the wall-clock time at which the
worker is killed and the error raised); `outOfTrace` is the model artifact
of running out of fuel — the Python loop never exits silently. -/
inductive LoopResult (α : Type) where
  | finished (out : Outcome α)
  | crashed (exitcode : Int)
  | timedOut (o : Obs α)
  | outOfTrace

/-- The supervision loop over a trace of observations. -/
def superviseLoop {α : Type} (timeout : ℚ) : List (Obs α) → LoopResult α
  | [] => .outOfTrace
  | o :: rest =>
    match loopStep timeout o with
    | .done out => .finished out
    | .crash c => .crashed c
    | .timeoutKill => .timedOut o
    | .continueNoSleep => superviseLoop timeout rest
    | .sleepRetry => superviseLoop timeout rest

/-- The errors `safe_generate_masks` raises (all `RuntimeError` in the
source, distinguished by their message): worker crash carrying the exit
code, timeout carrying the configured budget, and the worker-reported
traceback. -/
inductive SafeError where
  | crashError (exitcode : Int)
  | timeoutSafeError (timeout : ℚ)
  | inferenceError (traceback : String)
  | unknownStatus

/-- Embedding of `safe_generate_masks` (lines 55-157): run the supervision
loop and interpret the outcome.  Returning `.error e` models raising: the
calling process receives the exception and continues.  The worker's
behaviour (everything the generation function does) is abstracted into the
observation trace. -/
def safe_generate_masks {α : Type} (timeout : ℚ) (trace : List (Obs α)) :
    Except SafeError α :=
  match superviseLoop timeout trace with
  | .finished (.ok p) => .ok p
  | .finished (.err tb) => .error (.inferenceError tb)
  | .crashed c => .error (.crashError c)
  | .timedOut _ => .error (.timeoutSafeError timeout)
  | .outOfTrace => .error .unknownStatus

/-- The externally visible operations one loop iteration performs, in
order.  On the timeout path the source runs `p.kill()`, then `p.join()`,
then raises — so the worker has been forcibly terminated and reaped before
the error is raised. -/
inductive Effect where
  | getOutcome
  | sleepPoll
  | killWorker
  | joinWorker
  | raiseTimeout
  | raiseCrash (code : Int)
deriving DecidableEq

/-- Effect sequence of one loop iteration. -/
def stepEffects {α : Type} (timeout : ℚ) (o : Obs α) : List Effect :=
  match loopStep timeout o with
  | .done _ => [.getOutcome]
  | .crash c => [.raiseCrash c]
  | .timeoutKill => [.killWorker, .joinWorker, .raiseTimeout]
  | .continueNoSleep => []
  | .sleepRetry => [.sleepPoll]

/-- The observation a still-computing worker produces at poll `k` of the
idealised timeline: nothing posted, process alive, elapsed time
`k * pollInterval` (the loop checks immediately, then sleeps 0.05 s
between polls). -/
def slowObs (k : Nat) : Obs Unit :=
  { queuedFirst := none
    queuedSecond := none
    alive := true
    exitcode := 0
    elapsed := (k : ℚ) * pollInterval }

/-- The trace of a generation function that computes past the timeout:
`n` polls of a silent, live worker. -/
def slowWorkerTrace (n : Nat) : List (Obs Unit) := (List.range n).map slowObs

/-- A raw mask entry as returned by the native automatic mask generators:
family-specific dict with a raster, a score field, and optional bbox, area
and tracking id. -/
structure RawMask where
  segmentation : List (List ℚ)
  score : Option ℚ
  predicted_iou : Option ℚ
  bbox : Option (List Int)
  area : Option Int
  track_id : Option Int

/-- The parameter keys `sam2_generate_masks` reads from `mg_config`
(model_sam2.py lines 142-149), in source order. -/
def requiredKeys_sam2 : List String :=
  ["points_per_side", "pred_iou_thresh", "stability_score_thresh",
   "crop_n_layers", "min_mask_region_area"]

/-- The parameter keys `sam21_generate_masks` reads from `mg_config`
(model_sam21.py lines 142-149), in source order. -/
def requiredKeys_sam21 : List String :=
  ["points_per_side", "pred_iou_thresh", "stability_score_thresh",
   "crop_n_layers", "min_mask_region_area"]

/-- The parameter keys `sam1_generate_masks` reads from the loaded preset
dict (model_sam1.py lines 94-103), in source order. -/
def requiredKeys_sam1 : List String :=
  ["points_per_side", "pred_iou_thresh", "stability_score_thresh",
   "crop_n_layers", "crop_n_points_downscale_factor",
   "min_mask_region_area", "output_mode"]

/-- Sequential `mg_config[key]` dictionary accesses: the first key missing
from the mapping, in access order — the key whose `KeyError` Python
raises — or `none` when every access succeeds. -/
def firstMissing {β : Type} (cfg : List (String × β)) : List String → Option String
  | [] => none
  | k :: ks => if (cfg.lookup k).isSome then firstMissing cfg ks else some k

/-- Normalisation of one raw SAM2 mask (model_sam2.py lines 154-164). -/
def sam2_normalize (m : RawMask) : MaskRecord :=
  make_mask_record m.segmentation (m.score.getD 0) m.bbox m.area m.track_id
    (some emptyJson)

/-- Normalisation of one raw SAM1 mask (model_sam1.py lines 108-118). -/
def sam1_normalize (m : RawMask) : MaskRecord :=
  make_mask_record m.segmentation (m.predicted_iou.getD 0) m.bbox m.area none
    (some emptyJson)

/-- Embedding of `sam2_generate_masks` (model_sam2.py lines 115-167).
`model_key` is the attribute `predictor.model_key` (`none` models its
absence); `generate` is the oracle standing for constructing the native
mask generator and running `generator.generate(np_image)` — the
compute-heavy part.  The required-parameter dictionary accesses happen, in
source order, while the generator's keyword arguments are evaluated, i.e.
strictly before any inference work. -/
def sam2_generate_masks {β : Type} (model_key : Option String)
    (generate : List (String × β) → List RawMask)
    (mg_config : List (String × β)) : Except PyError (List MaskRecord) :=
  match model_key with
  | none => .error (.runtimeError
      ("SAM2 predictor missing model_key (should be " ++ squote ++ "sam2" ++ squote ++ ")."))
  | some _ =>
    match firstMissing mg_config requiredKeys_sam2 with
    | some k => .error (.keyError k)
    | none => .ok ((generate mg_config).map sam2_normalize)

/-- Embedding of `sam21_generate_masks` (model_sam21.py lines 114-167);
structurally identical to the SAM2 adapter. -/
def sam21_generate_masks {β : Type} (model_key : Option String)
    (generate : List (String × β) → List RawMask)
    (mg_config : List (String × β)) : Except PyError (List MaskRecord) :=
  match model_key with
  | none => .error (.runtimeError
      ("SAM2.1 predictor is missing model_key (" ++ squote ++ "sam21" ++ squote ++ ")."))
  | some _ =>
    match firstMissing mg_config requiredKeys_sam21 with
    | some k => .error (.keyError k)
    | none => .ok ((generate mg_config).map sam2_normalize)

/-- Embedding of `sam1_generate_masks` (model_sam1.py lines 64-121).  SAM1
resolves its parameter mapping itself via `load_preset_params`, then
performs the required-key accesses while building
`SamAutomaticMaskGenerator`, before `generator.generate` runs. -/
def sam1_generate_masks {β : Type} (model_key : Option String)
    (generate : List (String × β) → List RawMask)
    (presetsRoot : Option (List (String × List (String × List (String × β)))))
    (preset_name : String) : Except PyError (List MaskRecord) :=
  match model_key with
  | none => .error (.runtimeError
      ("SAM1 model is missing model_key. Did load_sam1() assign model.model_key?"))
  | some mk =>
    match load_preset_params presetsRoot mk preset_name with
    | .error e => .error e
    | .ok params =>
      match firstMissing params requiredKeys_sam1 with
      | some k => .error (.keyError k)
      | none => .ok ((generate params).map sam1_normalize)

/-- A concrete record with a 2×2 raster holding exactly the membership
values 0 and 1. -/
def c3mask : MaskRecord :=
  { mask := [[0, 1], [1, 0]]
    confidence := 1
    bbox := none
    area := none
    track_id := none
    metadata := "m" }

/-- A concrete record with all optional scalar fields present. -/
def c4mask : MaskRecord :=
  { mask := [[1]]
    confidence := 1
    bbox := some [3, 4, 10, 12]
    area := some 42
    track_id := some 7
    metadata := "m" }

/-- Ten-or-more concrete records, distinguishable by their metadata text. -/
def cexMask (i : Nat) : MaskRecord :=
  { mask := []
    confidence := 0
    bbox := none
    area := none
    track_id := none
    metadata := toString i }

/-- The observation of a child process that has exited (exit code `c`)
without ever posting an outcome: both queue checks of the iteration see an
empty channel. -/
def crashedObs {α : Type} (c : Int) (e : ℚ) : Obs α :=
  { queuedFirst := none
    queuedSecond := none
    alive := false
    exitcode := c
    elapsed := e }

/-- A non-trivial raw mask, used to instantiate a second, observably
different generation oracle. -/
def rawProbe : RawMask :=
  { segmentation := [[1]]
    score := some 1
    predicted_iou := some 1
    bbox := none
    area := none
    track_id := none }

/-! Helper lemmas. -/

theorem charListLe_total : ∀ as bs : List Char,
    charListLe as bs = true ∨ charListLe bs as = true := by
  intro as
  induction as with
  | nil => intro bs; left; rfl
  | cons a as ih =>
    intro bs
    cases bs with
    | nil => right; rfl
    | cons b bs =>
      simp only [charListLe]
      rcases Nat.lt_trichotomy a.toNat b.toNat with h | h | h
      · left; simp [h]
      · have h1 : ¬ a.toNat < b.toNat := by omega
        have h2 : ¬ b.toNat < a.toNat := by omega
        rcases ih bs with hc | hc
        · left; simp [h1, h2, hc]
        · right; simp [h1, h2, hc]
      · right; simp [h]

theorem charListLe_trans : ∀ as bs cs : List Char,
    charListLe as bs = true → charListLe bs cs = true →
    charListLe as cs = true := by
  intro as
  induction as with
  | nil => intro bs cs _ _; rfl
  | cons a as ih =>
    intro bs cs h1 h2
    cases bs with
    | nil => simp [charListLe] at h1
    | cons b bs =>
      cases cs with
      | nil => simp [charListLe] at h2
      | cons c cs =>
        simp only [charListLe] at h1 h2 ⊢
        rcases Nat.lt_trichotomy a.toNat b.toNat with hab | hab | hab
        · rcases Nat.lt_trichotomy b.toNat c.toNat with hbc | hbc | hbc
          · have : a.toNat < c.toNat := lt_trans hab hbc
            simp [this]
          · have : a.toNat < c.toNat := hbc ▸ hab
            simp [this]
          · rw [if_neg (by omega), if_pos hbc] at h2
            exact absurd h2 (by simp)
        · rw [if_neg (by omega), if_neg (by omega)] at h1
          rcases Nat.lt_trichotomy b.toNat c.toNat with hbc | hbc | hbc
          · have : a.toNat < c.toNat := hab ▸ hbc
            simp [this]
          · have hac : a.toNat = c.toNat := hab.trans hbc
            rw [if_neg (by omega), if_neg (by omega)] at h2 ⊢
            exact ih bs cs h1 h2
          · rw [if_neg (by omega), if_pos hbc] at h2
            exact absurd h2 (by simp)
        · rw [if_neg (by omega), if_pos hab] at h1
          exact absurd h1 (by simp)

theorem maskGroups_map_snd (masks : List MaskRecord) (jpeg_bytes : List Nat)
    (i1 i2 i3 i4 : String) :
    ((write_masks_h5 masks jpeg_bytes i1 i2 i3 i4).maskGroups).map Prod.snd
      = masks.map writeGroup := by
  simp only [write_masks_h5, List.map_map]
  calc masks.enum.map (Prod.snd ∘ fun p : Nat × MaskRecord => (toString p.1, writeGroup p.2))
      = (masks.enum.map Prod.snd).map writeGroup := by rw [List.map_map]; rfl
    _ = masks.map writeGroup := by rw [List.enum_map_snd]

theorem int32cast_eq_self (z : Int) (h1 : -(2 ^ 31) ≤ z) (h2 : z < 2 ^ 31) :
    int32cast z = z := by
  have e31 : (2 : Int) ^ 31 = 2147483648 := by norm_num
  have e32 : (2 : Int) ^ 32 = 4294967296 := by norm_num
  rw [int32cast, e31, e32]
  rw [e31] at h1 h2
  rw [Int.emod_eq_of_lt (by omega) (by omega)]
  omega

theorem int64cast_eq_self (z : Int) (h1 : -(2 ^ 63) ≤ z) (h2 : z < 2 ^ 63) :
    int64cast z = z := by
  have e63 : (2 : Int) ^ 63 = 9223372036854775808 := by norm_num
  have e64 : (2 : Int) ^ 64 = 18446744073709551616 := by norm_num
  rw [int64cast, e63, e64]
  rw [e63] at h1 h2
  rw [Int.emod_eq_of_lt (by omega) (by omega)]
  omega

theorem quantize_zero : quantize 0 = 0 := by norm_num [quantize]

theorem quantize_one : quantize 1 = 255 := by
  have h : ((1 : ℚ) * 255) = ((255 : Int) : ℚ) := by norm_num
  rw [quantize, h, Int.floor_intCast]
  rfl

/-- Claim C3: for any list of mask records written by `write_masks_h5` and
read back by `load_masks_h5`, the number of masks read equals the number
written; each written record's reconstruction is among the loaded masks;
and every raster pixel whose membership value at write time was exactly 0
or exactly 1 is reconstructed exactly (as `false` resp. `true`) after the
8-bit quantisation on write and the midpoint thresholding on read. -/
theorem masks_h5_roundtrip_count_and_binary_pixels
    (masks : List MaskRecord) (jpeg_bytes : List Nat) (i1 i2 i3 i4 : String) :
    ((load_masks_h5 (write_masks_h5 masks jpeg_bytes i1 i2 i3 i4)).masks).length
        = masks.length
    ∧ (∀ m ∈ masks,
        readGroup (writeGroup m)
          ∈ (load_masks_h5 (write_masks_h5 masks jpeg_bytes i1 i2 i3 i4)).masks)
    ∧ (∀ (m : MaskRecord) (r c : Nat) (q : ℚ), pixelAt m.mask r c = some q →
        (q = 0 → pixelAt (readGroup (writeGroup m)).segmentation r c = some false)
        ∧ (q = 1 → pixelAt (readGroup (writeGroup m)).segmentation r c = some true)) := by
  refine ⟨?_, ?_, ?_⟩
  · simp [load_masks_h5, sortGroups, List.length_insertionSort, write_masks_h5,
      List.enum_length]
  · intro m hm
    have h1 : writeGroup m
        ∈ ((write_masks_h5 masks jpeg_bytes i1 i2 i3 i4).maskGroups).map Prod.snd := by
      rw [maskGroups_map_snd]
      exact List.mem_map_of_mem writeGroup hm
    have hp : List.Perm
        (sortGroups (write_masks_h5 masks jpeg_bytes i1 i2 i3 i4).maskGroups)
        ((write_masks_h5 masks jpeg_bytes i1 i2 i3 i4).maskGroups) :=
      List.perm_insertionSort groupLe _
    have h2 : writeGroup m
        ∈ (sortGroups (write_masks_h5 masks jpeg_bytes i1 i2 i3 i4).maskGroups).map
            Prod.snd := ((hp.map Prod.snd).mem_iff).mpr h1
    obtain ⟨p, hps, hpe⟩ := List.mem_map.mp h2
    exact List.mem_map.mpr ⟨p, hps, by rw [hpe]⟩
  · intro m r c q hq
    have hseg : (readGroup (writeGroup m)).segmentation
        = m.mask.map (fun row => row.map (fun v => decide (127 < quantize v))) := by
      simp [readGroup, writeGroup, List.map_map, Function.comp]
    cases hrow : m.mask[r]? with
    | none => simp [pixelAt, hrow] at hq
    | some row =>
      rw [pixelAt, hrow] at hq
      simp only [Option.some_bind] at hq
      have hcell : pixelAt (readGroup (writeGroup m)).segmentation r c
          = some (decide (127 < quantize q)) := by
        rw [hseg, pixelAt, List.getElem?_map, hrow]
        simp [hq]
      constructor
      · rintro rfl
        rw [hcell, quantize_zero]
        simp
      · rintro rfl
        rw [hcell, quantize_one]
        simp

theorem masks_h5_roundtrip_count_and_binary_pixels_witness :
    ((load_masks_h5 (write_masks_h5 [c3mask] [7] "a" "b" "c" "d")).masks).length = 1
    ∧ readGroup (writeGroup c3mask)
        ∈ (load_masks_h5 (write_masks_h5 [c3mask] [7] "a" "b" "c" "d")).masks
    ∧ pixelAt (readGroup (writeGroup c3mask)).segmentation 0 0 = some false
    ∧ pixelAt (readGroup (writeGroup c3mask)).segmentation 0 1 = some true := by
  have h := masks_h5_roundtrip_count_and_binary_pixels [c3mask] [7] "a" "b" "c" "d"
  refine ⟨h.1, h.2.1 c3mask (by simp), ?_, ?_⟩
  · exact (h.2.2 c3mask 0 0 0 rfl).1 rfl
  · exact (h.2.2 c3mask 0 1 1 rfl).2 rfl

/-- Claim C4: source-image bytes written by `write_masks_h5` are read back
byte-for-byte by `load_masks_h5`, for any input; and the scalar metadata
fields stored per mask (confidence, bbox, area, track_id) are reconstructed
exactly whenever present — for the integer fields, within the declared
int32/int64 dataset ranges of the container format (spec §6: 4-element
integer bbox, 64-bit area, 64-bit track id). -/
theorem masks_h5_jpeg_and_scalar_roundtrip
    (masks : List MaskRecord) (jpeg_bytes : List Nat) (i1 i2 i3 i4 : String) :
    (load_masks_h5 (write_masks_h5 masks jpeg_bytes i1 i2 i3 i4)).jpeg_bytes = jpeg_bytes
    ∧ (∀ m : MaskRecord, (readGroup (writeGroup m)).confidence = m.confidence)
    ∧ (∀ (m : MaskRecord) (b : List Int), m.bbox = some b →
        (∀ x ∈ b, -(2 ^ 31) ≤ x ∧ x < 2 ^ 31) → (readGroup (writeGroup m)).bbox = b)
    ∧ (∀ (m : MaskRecord) (a : Int), m.area = some a →
        -(2 ^ 63) ≤ a → a < 2 ^ 63 → (readGroup (writeGroup m)).area = a)
    ∧ (∀ (m : MaskRecord) (t : Int), m.track_id = some t →
        -(2 ^ 63) ≤ t → t < 2 ^ 63 → (readGroup (writeGroup m)).track_id = t) := by
  refine ⟨rfl, fun m => rfl, ?_, ?_, ?_⟩
  · intro m b hb hrange
    simp only [readGroup, writeGroup, hb]
    calc b.map int32cast = b.map id := by
          refine List.map_congr_left (fun x hx => ?_)
          exact int32cast_eq_self x (hrange x hx).1 (hrange x hx).2
      _ = b := List.map_id b
  · intro m a ha h1 h2
    simp only [readGroup, writeGroup, ha]
    exact int64cast_eq_self a h1 h2
  · intro m t ht h1 h2
    simp only [readGroup, writeGroup, ht]
    exact int64cast_eq_self t h1 h2

theorem masks_h5_jpeg_and_scalar_roundtrip_witness :
    (load_masks_h5 (write_masks_h5 [c4mask] [0, 255, 17] "a" "b" "c" "d")).jpeg_bytes
        = [0, 255, 17]
    ∧ (readGroup (writeGroup c4mask)).confidence = c4mask.confidence
    ∧ (readGroup (writeGroup c4mask)).bbox = [3, 4, 10, 12]
    ∧ (readGroup (writeGroup c4mask)).area = 42
    ∧ (readGroup (writeGroup c4mask)).track_id = 7 := by
  have h := masks_h5_jpeg_and_scalar_roundtrip [c4mask] [0, 255, 17] "a" "b" "c" "d"
  refine ⟨h.1, h.2.1 c4mask, ?_, ?_, ?_⟩
  · refine h.2.2.1 c4mask [3, 4, 10, 12] rfl ?_
    intro x hx
    fin_cases hx <;> constructor <;> decide
  · exact h.2.2.2.1 c4mask 42 rfl (by decide) (by decide)
  · exact h.2.2.2.2 c4mask 7 rfl (by decide) (by decide)

/-- Claim C9: `write_masks_h5` stores an absent optional field as the
schema's reserved sentinel — an absent bbox as the empty integer array, an
absent area as 0, an absent track_id as -1 — and `make_mask_record` maps
missing (defaulted-to-`None`) bbox, area and track_id to the unset sentinel
`none`. -/
theorem mask_writer_unset_sentinels :
    (∀ (mask : List (List ℚ)) (conf : ℚ),
        (make_mask_record mask conf none none none none).bbox = none
        ∧ (make_mask_record mask conf none none none none).area = none
        ∧ (make_mask_record mask conf none none none none).track_id = none)
    ∧ (∀ m : MaskRecord, m.bbox = none → (writeGroup m).bbox = [])
    ∧ (∀ m : MaskRecord, m.area = none → (writeGroup m).area = 0)
    ∧ (∀ m : MaskRecord, m.track_id = none → (writeGroup m).track_id = -1) := by
  refine ⟨fun mask conf => ⟨rfl, rfl, rfl⟩, ?_, ?_, ?_⟩
  · intro m h
    simp [writeGroup, h]
  · intro m h
    simp only [writeGroup, h]
    exact int64cast_eq_self 0 (by norm_num) (by norm_num)
  · intro m h
    simp [writeGroup, h]

theorem mask_writer_unset_sentinels_witness :
    (make_mask_record [[0]] 1 none none none none).bbox = none
    ∧ (writeGroup c3mask).bbox = []
    ∧ (writeGroup c3mask).area = 0
    ∧ (writeGroup c3mask).track_id = -1 := by
  have h := mask_writer_unset_sentinels
  exact ⟨(h.1 [[0]] 1).1, h.2.1 c3mask rfl, h.2.2.1 c3mask rfl, h.2.2.2 c3mask rfl⟩

/-- Counterexample to claim C10 as stated: a container holding exactly ten
masks (group names "0" … "9") is read back in exactly the numeric order in
which the masks were written — the lexicographic and numeric orders
coincide below eleven masks.  The records are pairwise distinct (their
metadata texts differ), so the order equality is not vacuous. -/
theorem load_masks_h5_order_ten_masks_counterexample :
    (load_masks_h5
        (write_masks_h5 ((List.range 10).map cexMask) [1] "a" "b" "c" "d")).masks
      = ((List.range 10).map cexMask).map (fun m => readGroup (writeGroup m))
    ∧ ((List.range 10).map cexMask).length = 10
    ∧ ((load_masks_h5
        (write_masks_h5 ((List.range 10).map cexMask) [1] "a" "b" "c" "d")).masks).map
          (fun r => r.metadata)
      = ["0", "1", "2", "3", "4", "5", "6", "7", "8", "9"] :=
  ⟨rfl, rfl, rfl⟩

theorem write_group_name_at (masks : List MaskRecord) (jpeg_bytes : List Nat)
    (i1 i2 i3 i4 : String) (i : Nat) (hi : i < masks.length) :
    ((((write_masks_h5 masks jpeg_bytes i1 i2 i3 i4).maskGroups)[i]?).map Prod.fst)
      = some (toString i) := by
  simp [write_masks_h5, List.getElem?_map, List.getElem?_enum,
    List.getElem?_eq_getElem hi]

/-- Claim C10 (amended): `load_masks_h5` returns the masks ordered by the
lexicographic order of the decimal group names under which `write_masks_h5`
stored them, and for every container holding eleven or more masks (not ten:
with exactly ten masks the names "0" … "9" sort identically under both
orders) this differs from the numeric order in which the masks were
written — e.g. the group named "10" is enumerated before the group named
"2" — even though the count is preserved. -/
theorem load_masks_h5_lexicographic_order
    (masks : List MaskRecord) (jpeg_bytes : List Nat) (i1 i2 i3 i4 : String)
    (h : 11 ≤ masks.length) :
    (load_masks_h5 (write_masks_h5 masks jpeg_bytes i1 i2 i3 i4)).masks
      = (sortGroups ((write_masks_h5 masks jpeg_bytes i1 i2 i3 i4).maskGroups)).map
          (fun p => readGroup p.2)
    ∧ ((write_masks_h5 masks jpeg_bytes i1 i2 i3 i4).maskGroups).map Prod.fst
        = decimalNames masks.length
    ∧ sortGroups ((write_masks_h5 masks jpeg_bytes i1 i2 i3 i4).maskGroups)
        ≠ (write_masks_h5 masks jpeg_bytes i1 i2 i3 i4).maskGroups := by
  refine ⟨rfl, ?_, ?_⟩
  · have hmm : ((write_masks_h5 masks jpeg_bytes i1 i2 i3 i4).maskGroups).map Prod.fst
        = (masks.enum.map Prod.fst).map toString := by
      simp only [write_masks_h5, List.map_map]
      rfl
    rw [hmm, List.enum_map_fst]
    rfl
  · intro heq
    haveI : IsTotal (String × MaskGroupData) groupLe :=
      ⟨fun a b => charListLe_total a.1.data b.1.data⟩
    haveI : IsTrans (String × MaskGroupData) groupLe :=
      ⟨fun a b c hab hbc => charListLe_trans a.1.data b.1.data c.1.data hab hbc⟩
    have hs : List.Sorted groupLe
        ((write_masks_h5 masks jpeg_bytes i1 i2 i3 i4).maskGroups) := by
      have h0 := List.sorted_insertionSort groupLe
        ((write_masks_h5 masks jpeg_bytes i1 i2 i3 i4).maskGroups)
      rwa [show List.insertionSort groupLe
          ((write_masks_h5 masks jpeg_bytes i1 i2 i3 i4).maskGroups)
        = sortGroups ((write_masks_h5 masks jpeg_bytes i1 i2 i3 i4).maskGroups) from rfl,
        heq] at h0
    have hlen : ((write_masks_h5 masks jpeg_bytes i1 i2 i3 i4).maskGroups).length
        = masks.length := by
      simp [write_masks_h5, List.enum_length]
    have h2 : (2 : Nat) < ((write_masks_h5 masks jpeg_bytes i1 i2 i3 i4).maskGroups).length := by
      omega
    have h10 : (10 : Nat) < ((write_masks_h5 masks jpeg_bytes i1 i2 i3 i4).maskGroups).length := by
      omega
    have hpair := List.pairwise_iff_get.mp hs ⟨2, h2⟩ ⟨10, h10⟩ (by
      rw [Fin.mk_lt_mk]; omega)
    have e2 : (((write_masks_h5 masks jpeg_bytes i1 i2 i3 i4).maskGroups).get ⟨2, h2⟩).1
        = "2" := by
      have hn := write_group_name_at masks jpeg_bytes i1 i2 i3 i4 2 (by omega)
      rw [List.getElem?_eq_getElem h2] at hn
      simp only [Option.map_some', Option.some.injEq] at hn
      rw [List.get_eq_getElem]
      rw [hn]
      decide
    have e10 : (((write_masks_h5 masks jpeg_bytes i1 i2 i3 i4).maskGroups).get ⟨10, h10⟩).1
        = "10" := by
      have hn := write_group_name_at masks jpeg_bytes i1 i2 i3 i4 10 (by omega)
      rw [List.getElem?_eq_getElem h10] at hn
      simp only [Option.map_some', Option.some.injEq] at hn
      rw [List.get_eq_getElem]
      rw [hn]
      decide
    rw [groupLe, e2, e10] at hpair
    exact absurd hpair (by decide)

theorem load_masks_h5_lexicographic_order_witness :
    ((write_masks_h5 ((List.range 11).map cexMask) [1] "a" "b" "c" "d").maskGroups).map
        Prod.fst = decimalNames 11
    ∧ sortGroups
        ((write_masks_h5 ((List.range 11).map cexMask) [1] "a" "b" "c" "d").maskGroups)
      ≠ (write_masks_h5 ((List.range 11).map cexMask) [1] "a" "b" "c" "d").maskGroups := by
  have h := load_masks_h5_lexicographic_order ((List.range 11).map cexMask) [1]
    "a" "b" "c" "d" (by simp)
  exact ⟨h.2.1, h.2.2⟩

/-- Claim C7: for a model key that has a preset group, resolving a preset
name that is not defined in that group yields the `KeyError` of
`load_preset_params` whose message enumerates (comma-separated, Python
`sorted` order) exactly the preset names defined for that model. -/
theorem load_preset_params_unknown_preset_enumerates {π : Type}
    (root : List (String × List (String × π))) (model_key preset_name : String)
    (group : List (String × π))
    (h1 : root.lookup model_key = some group)
    (h2 : group.lookup preset_name = none) :
    load_preset_params (some root) model_key preset_name
      = .error (.unknownPreset
          (unknownPresetMsg model_key preset_name (sortedStr (group.map Prod.fst)))
          (sortedStr (group.map Prod.fst)))
    ∧ (∀ name ∈ group.map Prod.fst, name ∈ sortedStr (group.map Prod.fst))
    ∧ (∀ name ∈ sortedStr (group.map Prod.fst), name ∈ group.map Prod.fst) := by
  refine ⟨?_, ?_, ?_⟩
  · simp [load_preset_params, h1, h2]
  · intro name hn
    exact (List.mem_insertionSort (fun a b => strLe a b = true)).mpr hn
  · intro name hn
    exact (List.mem_insertionSort (fun a b => strLe a b = true)).mp hn

theorem load_preset_params_unknown_preset_enumerates_witness :
    load_preset_params (some [("sam1_vit_b", [("default", 3), ("fast", 5)])])
        "sam1_vit_b" "slow"
      = .error (.unknownPreset
          (unknownPresetMsg "sam1_vit_b" "slow"
            (sortedStr ([("default", 3), ("fast", 5)].map Prod.fst)))
          (sortedStr ([("default", 3), ("fast", 5)].map Prod.fst)))
    ∧ "default" ∈ sortedStr ([("default", (3 : Nat)), ("fast", 5)].map Prod.fst) := by
  have h := load_preset_params_unknown_preset_enumerates
    [("sam1_vit_b", [("default", (3 : Nat)), ("fast", 5)])] "sam1_vit_b" "slow"
    [("default", 3), ("fast", 5)] (by rfl) (by rfl)
  exact ⟨h.1, h.2.1 "default" (by simp)⟩

/-- Claim C8: in an environment with no accelerator detected (no CUDA, no
MPS), `resolve_device` resolves a request of "auto" to "cpu"; the function
is total, so no error is ever raised. -/
theorem resolve_device_auto_cpu (s : String)
    (h : pyLower (pyStrip s) = "auto") :
    resolve_device s false false = "cpu" := by
  rw [resolve_device, h]
  rfl

theorem resolve_device_auto_cpu_witness :
    resolve_device "auto" false false = "cpu" :=
  resolve_device_auto_cpu "auto" rfl

/-- Claim C5 (code bug): with no CUDA accelerator available,
`model_loader.resolve_device` resolves an explicit request of "cuda" to
"cpu" (a warn-and-downgrade, with or without MPS present) instead of
raising, while the family adapters' own `_resolve_device`
(model_sam2.py / model_sam21.py), whose docstring reads "cuda → CUDA
required; error if unavailable", raises for the same input.  The claim —
and the spec's "no silent downgrade" — match the adapters' documented
behaviour; `model_loader.resolve_device`, the function actually used on
the `load_model` path, contradicts it. -/
theorem resolve_device_cuda_silent_downgrade :
    resolve_device "cuda" false false = "cpu"
    ∧ resolve_device "cuda" false true = "cpu"
    ∧ sam2_resolve_device (some "cuda") false
        = .error (.runtimeError
            ("Config requested device=" ++ squote ++ "cuda" ++ squote ++
              " but CUDA is unavailable.")) :=
  ⟨rfl, rfl, rfl⟩

/-- Claim C1: if the isolated worker exits without having posted any
outcome on the one-shot channel, `safe_generate_masks` raises the crash
error carrying the child's exit code (the call returns that error value to
the still-running caller rather than dying or hanging); the channel is
checked — twice — before a crash is concluded: a crash verdict is possible
only when both channel reads of the iteration saw no outcome, and a dead
child whose outcome has meanwhile arrived makes the loop continue so that
the outcome is picked up.  The worker's generation function is arbitrary:
it is abstracted by the observation trace (`pre` is any prefix of polls
during which the child was alive, silent, and within the time budget). -/
theorem safe_generate_masks_crash_isolated {α : Type} (t : ℚ)
    (pre rest : List (Obs α)) (c : Int) (e : ℚ)
    (hpre : ∀ o ∈ pre, o.queuedFirst = none ∧ o.alive = true ∧ o.elapsed ≤ t) :
    superviseLoop t (pre ++ (crashedObs c e : Obs α) :: rest) = .crashed c
    ∧ safe_generate_masks t (pre ++ (crashedObs c e : Obs α) :: rest)
        = .error (.crashError c)
    ∧ (∀ (o : Obs α) (code : Int), loopStep t o = .crash code →
        o.queuedFirst = none ∧ o.queuedSecond = none)
    ∧ (∀ o : Obs α, o.queuedFirst = none → o.alive = false →
        (o.queuedSecond).isSome → loopStep t o = .continueNoSleep) := by
  have hloop : superviseLoop t (pre ++ (crashedObs c e : Obs α) :: rest) = .crashed c := by
    induction pre with
    | nil =>
      simp [superviseLoop, loopStep, crashedObs]
    | cons o pre ih =>
      have ho := hpre o (by simp)
      have hrec := ih (fun o' ho' => hpre o' (by simp [ho']))
      have hstep : loopStep t o = .sleepRetry := by
        obtain ⟨hq, ha, he⟩ := ho
        simp only [loopStep, hq, ha]
        rw [if_neg (not_lt.mpr he)]
      rw [List.cons_append]
      simp only [superviseLoop, hstep]
      exact hrec
  refine ⟨hloop, ?_, ?_, ?_⟩
  · simp only [safe_generate_masks, hloop]
  · intro o code h
    cases hqf : o.queuedFirst with
    | some out =>
      simp only [loopStep, hqf] at h
      exact absurd h (by simp)
    | none =>
      cases hal : o.alive with
      | true =>
        simp only [loopStep, hqf, hal] at h
        split at h <;> exact absurd h (by simp)
      | false =>
        cases hqs : o.queuedSecond with
        | some x =>
          simp only [loopStep, hqf, hal, hqs] at h
          exact absurd h (by simp)
        | none => exact ⟨rfl, rfl⟩
  · intro o hqf hal hqs
    obtain ⟨x, hx⟩ := Option.isSome_iff_exists.mp hqs
    simp only [loopStep, hqf, hal, hx]

theorem safe_generate_masks_crash_isolated_witness :
    safe_generate_masks 1 ([] ++ (crashedObs (-11) 0 : Obs Unit) :: [])
      = .error (.crashError (-11)) :=
  (safe_generate_masks_crash_isolated 1 [] [] (-11) 0 (by simp)).2.1

theorem superviseLoop_slow_aux (t : ℚ) :
    ∀ (n j : Nat), (j : ℚ) * pollInterval ≤ t + pollInterval →
      t + pollInterval < ((j + n : Nat) : ℚ) * pollInterval →
      ∃ o : Obs Unit, superviseLoop t ((List.range' j n).map slowObs) = .timedOut o
        ∧ o.elapsed ≤ t + pollInterval
        ∧ loopStep t o = .timeoutKill := by
  intro n
  induction n with
  | zero =>
    intro j hinv hfuel
    exfalso
    push_cast at hfuel hinv
    linarith
  | succ n ih =>
    intro j hinv hfuel
    rw [List.range'_succ, List.map_cons]
    by_cases hj : t < (j : ℚ) * pollInterval
    · have hstep : loopStep t (slowObs j) = .timeoutKill := by
        simp only [loopStep, slowObs]
        rw [if_pos hj]
      refine ⟨slowObs j, ?_, ?_, hstep⟩
      · simp only [superviseLoop, hstep]
      · exact hinv
    · have hle : (j : ℚ) * pollInterval ≤ t := not_lt.mp hj
      have hstep : loopStep t (slowObs j) = .sleepRetry := by
        simp only [loopStep, slowObs]
        rw [if_neg hj]
      have hexp : ((j : ℚ) + 1) * pollInterval
          = (j : ℚ) * pollInterval + pollInterval := by ring
      have hinv' : ((j + 1 : Nat) : ℚ) * pollInterval ≤ t + pollInterval := by
        push_cast
        rw [hexp]
        linarith
      have hfuel' : t + pollInterval < (((j + 1) + n : Nat) : ℚ) * pollInterval := by
        push_cast at hfuel ⊢
        have harr : ((j : ℚ) + 1 + n) = ((j : ℚ) + (n + 1)) := by ring
        rw [harr]
        exact hfuel
      obtain ⟨o, h1, h2, h3⟩ := ih (j + 1) hinv' hfuel'
      refine ⟨o, ?_, h2, h3⟩
      simp only [superviseLoop, hstep]
      exact h1

/-- Claim C2: a generation function whose execution exceeds the configured
timeout (modelled by the idealised timeline of a silent, live worker
polled every `pollInterval` = 0.05 s) makes `safe_generate_masks` raise the
timeout error at an elapsed time of at most `timeout + pollInterval` — one
polling interval past the budget — and on the raising iteration the worker
is killed (`p.kill()`) and reaped (`p.join()`) strictly before the error is
raised, so the spawned process is no longer running when the caller sees
the error.  `n` is any fuel large enough for the timeline to reach the
timeout. -/
theorem safe_generate_masks_timeout_bound (t : ℚ) (n : Nat)
    (ht : 0 ≤ t) (hn : t + pollInterval < (n : ℚ) * pollInterval) :
    ∃ o : Obs Unit, superviseLoop t (slowWorkerTrace n) = .timedOut o
      ∧ o.elapsed ≤ t + pollInterval
      ∧ stepEffects t o = [Effect.killWorker, Effect.joinWorker, Effect.raiseTimeout]
      ∧ safe_generate_masks t (slowWorkerTrace n) = .error (.timeoutSafeError t) := by
  have hpoll : (0 : ℚ) < pollInterval := by norm_num [pollInterval]
  have h0 : ((0 : Nat) : ℚ) * pollInterval ≤ t + pollInterval := by
    push_cast
    linarith
  have hf : t + pollInterval < ((0 + n : Nat) : ℚ) * pollInterval := by
    push_cast
    linarith
  obtain ⟨o, h1, h2, h3⟩ := superviseLoop_slow_aux t n 0 h0 hf
  have htrace : slowWorkerTrace n = (List.range' 0 n).map slowObs := by
    rw [slowWorkerTrace, List.range_eq_range']
  refine ⟨o, ?_, h2, ?_, ?_⟩
  · rw [htrace]
    exact h1
  · simp only [stepEffects, h3]
  · rw [safe_generate_masks, htrace, h1]

theorem safe_generate_masks_timeout_bound_witness :
    safe_generate_masks (1 / 10) (slowWorkerTrace 4)
      = .error (.timeoutSafeError (1 / 10)) := by
  obtain ⟨o, h1, h2, h3, h4⟩ := safe_generate_masks_timeout_bound (1 / 10) 4
    (by norm_num) (by norm_num [pollInterval])
  exact h4

theorem firstMissing_of_missing {β : Type} (cfg : List (String × β)) :
    ∀ (ks : List String) (k : String), k ∈ ks → cfg.lookup k = none →
      ∃ k2 ∈ ks, firstMissing cfg ks = some k2 := by
  intro ks
  induction ks with
  | nil =>
    intro k hk
    simp at hk
  | cons a ks ih =>
    intro k hk hnone
    by_cases ha : (cfg.lookup a).isSome
    · rcases List.mem_cons.mp hk with rfl | hk2
      · rw [hnone] at ha
        simp at ha
      · obtain ⟨k2, hmem, he⟩ := ih k hk2 hnone
        refine ⟨k2, List.mem_cons_of_mem a hmem, ?_⟩
        simp only [firstMissing]
        rw [if_pos ha]
        exact he
    · refine ⟨a, List.mem_cons_self a ks, ?_⟩
      simp only [firstMissing]
      rw [if_neg ha]

/-- Claim C6: for each family adapter's generate call, if the parameter
mapping in use is missing a key the adapter requires, the call fails with
the missing-parameter `KeyError` (the configuration error of the spec's
taxonomy) raised during the required-key dictionary accesses — i.e. before
any compute-heavy inference work: the result is identical for any two
generation oracles, so the native generator is never consulted.  For SAM2
and SAM2.1 the mapping is the `mg_config` argument; for SAM1 it is the
preset bag the adapter itself resolves from the configuration. -/
theorem generate_missing_param_fails_fast :
    (∀ (β : Type) (mk : String) (cfg : List (String × β)) (k : String)
        (g1 g2 : List (String × β) → List RawMask),
        k ∈ requiredKeys_sam2 → cfg.lookup k = none →
        sam2_generate_masks (some mk) g1 cfg = sam2_generate_masks (some mk) g2 cfg
        ∧ ∃ k2 ∈ requiredKeys_sam2,
            sam2_generate_masks (some mk) g1 cfg = .error (.keyError k2))
    ∧ (∀ (β : Type) (mk : String) (cfg : List (String × β)) (k : String)
        (g1 g2 : List (String × β) → List RawMask),
        k ∈ requiredKeys_sam21 → cfg.lookup k = none →
        sam21_generate_masks (some mk) g1 cfg = sam21_generate_masks (some mk) g2 cfg
        ∧ ∃ k2 ∈ requiredKeys_sam21,
            sam21_generate_masks (some mk) g1 cfg = .error (.keyError k2))
    ∧ (∀ (β : Type) (mk preset : String)
        (root : List (String × List (String × List (String × β))))
        (group : List (String × List (String × β)))
        (params : List (String × β)) (k : String)
        (g1 g2 : List (String × β) → List RawMask),
        root.lookup mk = some group → group.lookup preset = some params →
        k ∈ requiredKeys_sam1 → params.lookup k = none →
        sam1_generate_masks (some mk) g1 (some root) preset
            = sam1_generate_masks (some mk) g2 (some root) preset
        ∧ ∃ k2 ∈ requiredKeys_sam1,
            sam1_generate_masks (some mk) g1 (some root) preset
              = .error (.keyError k2)) := by
  refine ⟨?_, ?_, ?_⟩
  · intro β mk cfg k g1 g2 hk hnone
    obtain ⟨k2, hmem, he⟩ := firstMissing_of_missing cfg requiredKeys_sam2 k hk hnone
    have hval : ∀ g : List (String × β) → List RawMask,
        sam2_generate_masks (some mk) g cfg = .error (.keyError k2) := by
      intro g
      simp only [sam2_generate_masks, he]
    exact ⟨(hval g1).trans (hval g2).symm, k2, hmem, hval g1⟩
  · intro β mk cfg k g1 g2 hk hnone
    obtain ⟨k2, hmem, he⟩ := firstMissing_of_missing cfg requiredKeys_sam21 k hk hnone
    have hval : ∀ g : List (String × β) → List RawMask,
        sam21_generate_masks (some mk) g cfg = .error (.keyError k2) := by
      intro g
      simp only [sam21_generate_masks, he]
    exact ⟨(hval g1).trans (hval g2).symm, k2, hmem, hval g1⟩
  · intro β mk preset root group params k g1 g2 hroot hgroup hk hnone
    obtain ⟨k2, hmem, he⟩ := firstMissing_of_missing params requiredKeys_sam1 k hk hnone
    have hload : load_preset_params (some root) mk preset = .ok params := by
      simp [load_preset_params, hroot, hgroup]
    have hval : ∀ g : List (String × β) → List RawMask,
        sam1_generate_masks (some mk) g (some root) preset = .error (.keyError k2) := by
      intro g
      simp only [sam1_generate_masks, hload, he]
    exact ⟨(hval g1).trans (hval g2).symm, k2, hmem, hval g1⟩

theorem generate_missing_param_fails_fast_witness :
    sam2_generate_masks (some "sam2") (fun _ => []) [("points_per_side", (24 : Nat))]
      = sam2_generate_masks (some "sam2") (fun _ => [rawProbe])
          [("points_per_side", (24 : Nat))] :=
  (generate_missing_param_fails_fast.1 Nat "sam2" [("points_per_side", 24)]
    "pred_iou_thresh" (fun _ => []) (fun _ => [rawProbe]) (by decide) (by decide)).1
